import Mathlib

/-!
# Verification of the e-commerce price-comparison scraper core

A shallow embedding, in Lean 4, of the pure in-page logic of the three
platform scrapers (`flipkartProductScrapper.js`, `myntraProductScraper.js`
and the Amazon scraper), together with the surrounding control flow of
`scrapeProduct` and the controller functions.

Modelling conventions:
* DOM querying is abstracted as a page/candidate structure holding, for each
  `querySelector` / `querySelectorAll` expression appearing in the source,
  the outcome of that query (the matched element's text, attribute values,
  boolean presence, or the list of matched elements' texts, in document
  order).  This follows the source's own abstraction boundary: every
  extraction function is a pure function of those query outcomes.
* JavaScript numbers produced by `parseFloat` / `parseInt` are modelled as
  `Option ℚ` / `Option ℤ`, with `none` standing for `NaN` (the literal
  `Infinity` token, which no price text contains, is not modelled).  JS
  truthiness of a number (`NaN` and `0` are falsy) is `jsTruthyQ` below;
  this is faithful because `NaN` and `null` behave identically in every
  truthiness test the source performs on numbers.
* `Math.round x` is `⌊x + 1/2⌋`, which is Mathlib's `round` on `ℚ`.
* Asynchronous steps that can fail (browser launch, navigation, selector
  waits) are modelled as `Except String Unit` values carried by an
  environment record; the thrown error's `message` is the `String`.
* The Flipkart source file is stored with a mojibake encoding: where the
  other files have the rupee sign U+20B9, it has the three characters
  U+201A U+00C7 U+03C0, and its seller regex excludes U+201A, U+00F2,
  U+00D6 instead of a star.  The embedding reproduces those literal
  characters.
-/

namespace Scraper

/-! ## JavaScript string and number primitives -/

/-- The whitespace class of JavaScript's `\s` / `trim()`, restricted to the
characters that can occur in the texts handled here (ASCII whitespace and
NBSP). -/
def jsWs (c : Char) : Bool :=
  c = ' ' ∨ c = '\t' ∨ c = '\n' ∨ c = '\r' ∨ c = '\x0b' ∨ c = '\x0c' ∨ c = ' '

/-- The `String.prototype.trim`. -/
def jsTrim (s : String) : String :=
  ⟨((s.data.dropWhile jsWs).reverse.dropWhile jsWs).reverse⟩

/-- The `replace(/\s+/g, ' ')`: every maximal whitespace run becomes one space.
The `prevWs` flag records whether the previous character was whitespace. -/
def collapseWsAux : Bool → List Char → List Char
  | _, [] => []
  | prevWs, c :: rest =>
    if jsWs c then
      if prevWs then collapseWsAux true rest
      else ' ' :: collapseWsAux true rest
    else c :: collapseWsAux false rest

/-- The `replace(/\s+/g, ' ')` on a string. -/
def collapseWs (s : String) : String := ⟨collapseWsAux false s.data⟩

/-- The `replace(/[…]/g, '')` for a character class given as a predicate. -/
def stripChars (bad : Char → Bool) (s : String) : String :=
  ⟨s.data.filter (fun c => !bad c)⟩

/-- Is the first character list a prefix of the second? -/
def isPrefixOfCL : List Char → List Char → Bool
  | [], _ => true
  | _ :: _, [] => false
  | a :: as, b :: bs => a = b && isPrefixOfCL as bs

/-- Does the second character list contain the first as a contiguous
sublist? -/
def isInfixOfCL (sub : List Char) : List Char → Bool
  | [] => sub.isEmpty
  | c :: rest => isPrefixOfCL sub (c :: rest) || isInfixOfCL sub rest

/-- The `a.includes(b)` on strings. -/
def containsSub (s sub : String) : Bool := isInfixOfCL sub.data s.data

/-- The `a.startsWith(b)` on strings. -/
def jsStartsWith (s pre : String) : Bool := isPrefixOfCL pre.data s.data

/-- The `match(/re/)[0]` for a character-class-run regex such as `/[\d.]+/` or
`/\d+/`: the first maximal run of characters in the class, if any. -/
def firstRun (p : Char → Bool) : List Char → Option String
  | [] => none
  | c :: rest =>
    if p c then some ⟨c :: rest.takeWhile p⟩
    else firstRun p rest

/-- Numeric value of a list of decimal digits. -/
def digitsToNat (l : List Char) : ℕ :=
  l.foldl (fun n c => 10 * n + (c.toNat - '0'.toNat)) 0

/-! Rational arithmetic, written through `Rat.divInt` so that concrete
scrapes evaluate inside the kernel (the library's `Rat.add`, `Rat.mul`,
`Rat.inv` are `@[irreducible]`); the `q*_eq` lemmas below identify each
with the ordinary field operation on `ℚ`. -/

/-- Addition on `ℚ` through `Rat.divInt`. -/
def qadd (a b : ℚ) : ℚ := Rat.divInt (a.num * b.den + b.num * a.den) (a.den * b.den)

/-- Subtraction on `ℚ` through `Rat.divInt`. -/
def qsub (a b : ℚ) : ℚ := Rat.divInt (a.num * b.den - b.num * a.den) (a.den * b.den)

/-- Multiplication on `ℚ` through `Rat.divInt`. -/
def qmul (a b : ℚ) : ℚ := Rat.divInt (a.num * b.num) (a.den * b.den)

/-- Division on `ℚ` through `Rat.divInt` (zero on division by zero, as the
field operation). -/
def qdiv (a b : ℚ) : ℚ := Rat.divInt (a.num * b.den) (a.den * b.num)

/-- The `10 ^ n` as a rational. -/
def qpow10 (n : ℕ) : ℚ := ((10 ^ n : ℕ) : ℚ)

/-- The `10 ^ z` for an integer exponent. -/
def qzpow10 (z : ℤ) : ℚ :=
  if 0 ≤ z then qpow10 z.toNat else qdiv 1 (qpow10 (-z).toNat)

/-- Absolute value on `ℚ`. -/
def qabs (q : ℚ) : ℚ := if q.num < 0 then Rat.neg q else q

/-- The `Math.round`: `⌊x + 1/2⌋`, written through `Rat.floor`. -/
def jsRound (q : ℚ) : ℤ := Rat.floor (qadd q (Rat.divInt 1 2))

/-- Agreement of `qadd` with addition on `ℚ`. -/
theorem qadd_eq (a b : ℚ) : qadd a b = a + b := by
  rw [qadd, Rat.divInt_eq_div]
  have ha : ((a.den : ℚ)) ≠ 0 := by exact_mod_cast a.den_nz
  have hb : ((b.den : ℚ)) ≠ 0 := by exact_mod_cast b.den_nz
  rw [show a + b = (a.num : ℚ) / (a.den : ℚ) + (b.num : ℚ) / (b.den : ℚ) by
    rw [Rat.num_div_den, Rat.num_div_den]]
  push_cast
  field_simp

/-- Agreement of `qsub` with subtraction on `ℚ`. -/
theorem qsub_eq (a b : ℚ) : qsub a b = a - b := by
  rw [qsub, Rat.divInt_eq_div]
  have ha : ((a.den : ℚ)) ≠ 0 := by exact_mod_cast a.den_nz
  have hb : ((b.den : ℚ)) ≠ 0 := by exact_mod_cast b.den_nz
  rw [show a - b = (a.num : ℚ) / (a.den : ℚ) - (b.num : ℚ) / (b.den : ℚ) by
    rw [Rat.num_div_den, Rat.num_div_den]]
  push_cast
  field_simp
  ring

/-- Agreement of `qmul` with multiplication on `ℚ`. -/
theorem qmul_eq (a b : ℚ) : qmul a b = a * b := by
  rw [qmul, Rat.divInt_eq_div]
  have ha : ((a.den : ℚ)) ≠ 0 := by exact_mod_cast a.den_nz
  have hb : ((b.den : ℚ)) ≠ 0 := by exact_mod_cast b.den_nz
  rw [show a * b = ((a.num : ℚ) / (a.den : ℚ)) * ((b.num : ℚ) / (b.den : ℚ)) by
    rw [Rat.num_div_den, Rat.num_div_den]]
  push_cast
  field_simp

/-- Agreement of `qdiv` with division on `ℚ`. -/
theorem qdiv_eq (a b : ℚ) : qdiv a b = a / b := by
  rw [qdiv, Rat.divInt_eq_div]
  have ha : ((a.den : ℚ)) ≠ 0 := by exact_mod_cast a.den_nz
  rcases eq_or_ne b 0 with hb | hb
  · subst hb
    simp
  · have hbn : ((b.num : ℚ)) ≠ 0 := by
      exact_mod_cast Rat.num_ne_zero.mpr hb
    have hbd : ((b.den : ℚ)) ≠ 0 := by exact_mod_cast b.den_nz
    rw [show a / b = ((a.num : ℚ) / (a.den : ℚ)) / ((b.num : ℚ) / (b.den : ℚ)) by
      rw [Rat.num_div_den, Rat.num_div_den]]
    push_cast
    field_simp

/-- Agreement of `qabs` with the absolute value on `ℚ`. -/
theorem qabs_eq (q : ℚ) : qabs q = |q| := by
  rw [qabs]
  by_cases h : q.num < 0
  · have hq : q < 0 := by
      by_contra hq
      exact absurd (Rat.num_nonneg.mpr (le_of_not_lt hq)) (not_le.mpr h)
    rw [if_pos h, abs_of_neg hq]
    rfl
  · have hq : (0 : ℚ) ≤ q := Rat.num_nonneg.mp (le_of_not_lt h)
    rw [if_neg h, abs_of_nonneg hq]

/-- Agreement of `jsRound` with Mathlib's `round`. -/
theorem jsRound_eq (q : ℚ) : jsRound q = round q := by
  rw [jsRound, round_eq, qadd_eq]
  have h2 : Rat.divInt 1 2 = (1 / 2 : ℚ) := by
    rw [Rat.divInt_eq_div]
    push_cast
    ring
  rw [h2]
  rfl

/-- Leading sign of a JS numeric literal: returns the sign as `ℤ` and the
remaining characters. -/
def readSign : List Char → ℤ × List Char
  | '+' :: rest => (1, rest)
  | '-' :: rest => (-1, rest)
  | l => (1, l)

/-- The `parseFloat`, on the character list of a string: skip whitespace, read an
optional sign, a decimal mantissa and an optional exponent, taking the
longest valid prefix; `none` is JS `NaN` (no digit found). -/
def parseFloatChars (l : List Char) : Option ℚ :=
  let l0 := l.dropWhile jsWs
  let sl := readSign l0
  let intD := sl.2.takeWhile Char.isDigit
  let l1 := sl.2.dropWhile Char.isDigit
  let fr : List Char × List Char :=
    match l1 with
    | '.' :: r => (r.takeWhile Char.isDigit, r.dropWhile Char.isDigit)
    | _ => ([], l1)
  if intD.isEmpty ∧ fr.1.isEmpty then none
  else
    let mant : ℚ := qadd ((digitsToNat intD : ℕ) : ℚ)
      (qdiv ((digitsToNat fr.1 : ℕ) : ℚ) (qpow10 fr.1.length))
    let exp : ℤ :=
      match fr.2 with
      | e :: r =>
        if e = 'e' ∨ e = 'E' then
          let se := readSign r
          let eD := se.2.takeWhile Char.isDigit
          if eD.isEmpty then 0 else se.1 * (digitsToNat eD : ℤ)
        else 0
      | [] => 0
    some (qmul (qmul ((sl.1 : ℤ) : ℚ) mant) (qzpow10 exp))

/-- The `parseFloat` on a string. -/
def parseFloat? (s : String) : Option ℚ := parseFloatChars s.data

/-- Value of a hexadecimal digit, used by `parseInt`'s `0x` auto-radix. -/
def hexVal (c : Char) : ℕ :=
  if c.isDigit then c.toNat - '0'.toNat
  else if 'a' ≤ c ∧ c ≤ 'f' then c.toNat - 'a'.toNat + 10
  else c.toNat - 'A'.toNat + 10

/-- Hex-digit test for `parseInt`'s `0x` auto-radix. -/
def isHexDigit (c : Char) : Bool :=
  c.isDigit ∨ ('a' ≤ c ∧ c ≤ 'f') ∨ ('A' ≤ c ∧ c ≤ 'F')

/-- The `parseInt` with no radix argument: skip whitespace, optional sign, the
`0x`/`0X` prefix selects radix 16, then the longest digit prefix; `none` is
JS `NaN`. -/
def parseIntChars (l : List Char) : Option ℤ :=
  let l0 := l.dropWhile jsWs
  let sl := readSign l0
  match sl.2 with
  | '0' :: x :: r =>
    if x = 'x' ∨ x = 'X' then
      let hD := r.takeWhile isHexDigit
      if hD.isEmpty then none
      else some (sl.1 * (hD.foldl (fun n c => 16 * n + hexVal c) 0 : ℤ))
    else
      -- decimal, and the leading '0' guarantees at least one digit
      some (sl.1 * (digitsToNat (('0' :: x :: r).takeWhile Char.isDigit) : ℤ))
  | rest =>
    let dD := rest.takeWhile Char.isDigit
    if dD.isEmpty then none else some (sl.1 * (digitsToNat dD : ℤ))

/-- The `parseInt` on a string. -/
def parseInt? (s : String) : Option ℤ := parseIntChars s.data

/-- JS truthiness of a number modelled as `Option ℚ` (`none` = `NaN`):
`NaN` and `0` are falsy. -/
def jsTruthyQ : Option ℚ → Bool
  | none => false
  | some q => q ≠ 0

/-- JS truthiness of an integer modelled as `Option ℤ`. -/
def jsTruthyZ : Option ℤ → Bool
  | none => false
  | some z => z ≠ 0

/-! ## `toLocaleString('en-IN')`

Indian digit grouping (last three digits, then pairs), at most three
fraction digits, rounded half away from zero, trailing fraction zeros
dropped. The claims below do not depend on the rendering itself, only on
when it is applied, but the function is modelled concretely so that
envelopes evaluate. -/

/-- Group a reversed digit list in pairs (the final group of three has
already been removed), inserting commas. -/
def group2Rev : List Char → List Char
  | a :: b :: c :: rest => a :: b :: ',' :: group2Rev (c :: rest)
  | l => l

/-- Indian grouping of a nonnegative integer's decimal digits. -/
def groupIndian (s : String) : String :=
  let cs := s.data
  if cs.length ≤ 3 then s
  else
    let last3 := cs.drop (cs.length - 3)
    let rest := cs.take (cs.length - 3)
    ⟨(group2Rev rest.reverse).reverse ++ ',' :: last3⟩

/-- Left-pad a fraction part to three digits. -/
def pad3 (n : ℕ) : List Char :=
  let s := (toString n).data
  List.replicate (3 - s.length) '0' ++ s

/-- Drop trailing zeros of a fraction-digit list. -/
def stripTrailingZeros (l : List Char) : List Char :=
  (l.reverse.dropWhile (· = '0')).reverse

/-- The `Number.prototype.toLocaleString('en-IN')` on a finite number
(`q.num < 0` is the sign test `q < 0`). -/
def formatINR (q : ℚ) : String :=
  let k : ℕ := (jsRound (qmul (qabs q) 1000)).toNat
  let intStr := groupIndian (toString (k / 1000))
  let fracStr : List Char := stripTrailingZeros (pad3 (k % 1000))
  (if q.num < 0 then "-" else "") ++ intStr ++
    (if fracStr.isEmpty then "" else "." ++ (⟨fracStr⟩ : String))

/-! ## Listing candidates and the sponsored filter

One structure per platform, holding the outcome of every DOM query the
corresponding `findFirstNonSponsoredProduct` performs against a result
container. `linkHref` is the `getAttribute('href')` of the queried link
element: `none` when the link element is missing or has no `href`
attribute. -/

/-- A Flipkart search-result container (`div.slAVV4, div.tUxRFH, …`). -/
structure FlipkartCandidate where
  /-- The `container.querySelector('.Z0Na3m, ._630qWQ, .ZB6XBm, [class*="sponsor"], [class*="ad"]') ≠ null`. -/
  hasSponsoredBadge : Bool
  /-- some ancestor (up to `body`) has class `Pvc1Aq` or `_3tfP8f`. -/
  parentSponsored : Bool
  /-- href of `container.querySelector('a.VJA3rP, a.s1Q9rs, a._2rpwqI, a.CGtC98, a._1fQZEK, a[href*="/p/"]')`. -/
  linkHref : Option String
  deriving DecidableEq

/-- The Flipkart sponsorship test (`hasSponsored || isParentSponsored`). -/
def flipkartSponsored (c : FlipkartCandidate) : Bool :=
  c.hasSponsoredBadge || c.parentSponsored

/-- Absolutize a Flipkart href. -/
def resolveFlipkart (href : String) : String :=
  if jsStartsWith href "http" then href else "https://www.flipkart.com" ++ href

/-- The `findFirstNonSponsoredProduct` of the Flipkart scraper: walk containers
in page order; skip sponsored ones; on an organic one, if the link query
matched and the href is truthy and contains `/p/`, return the absolutized
URL, otherwise continue with the next container. -/
def findFirstFlipkart : List FlipkartCandidate → Option String
  | [] => none
  | c :: rest =>
    if flipkartSponsored c then findFirstFlipkart rest
    else
      match c.linkHref with
      | some href =>
        if href ≠ "" ∧ containsSub href "/p/" then some (resolveFlipkart href)
        else findFirstFlipkart rest
      | none => findFirstFlipkart rest

/-- An Amazon search result (`[data-component-type="s-search-result"]`). -/
structure AmazonCandidate where
  /-- The `result.querySelector('[data-component-type="sp-sponsored-result"]') ≠ null`. -/
  sponsoredByAttr : Bool
  /-- The `textContent` of every descendant `span`, in document order. -/
  spanTexts : List String
  /-- The `result.classList.contains('AdHolder')`. -/
  hasAdHolderClass : Bool
  /-- The `result.classList.contains('s-sponsored-list-item')`. -/
  hasSponsoredListClass : Bool
  /-- The `result.querySelector('.puis-sponsored-label-text, .s-label-popover-default') ≠ null`. -/
  hasSponsoredLabel : Bool
  /-- href of `result.querySelector('h2 a, .s-title-instructions-style a, a.a-link-normal.s-no-outline')`. -/
  linkHref : Option String
  deriving DecidableEq

/-- Method 2 of the Amazon filter: some span's lowercased trimmed text is
exactly `"sponsored"`. -/
def amazonSpanSponsored (c : AmazonCandidate) : Bool :=
  c.spanTexts.any (fun t => jsTrim t.toLower = "sponsored")

/-- The Amazon sponsorship test: any of the four methods. -/
def amazonSponsored (c : AmazonCandidate) : Bool :=
  c.sponsoredByAttr || amazonSpanSponsored c ||
    (c.hasAdHolderClass || c.hasSponsoredListClass) || c.hasSponsoredLabel

/-- Absolutize an Amazon href. -/
def resolveAmazon (href : String) : String :=
  if jsStartsWith href "http" then href else "https://www.amazon.in" ++ href

/-- The `findFirstNonSponsoredProduct` of the Amazon scraper. -/
def findFirstAmazon : List AmazonCandidate → Option String
  | [] => none
  | c :: rest =>
    if amazonSponsored c then findFirstAmazon rest
    else
      match c.linkHref with
      | some href =>
        if href ≠ "" ∧ containsSub href "/dp/" then some (resolveAmazon href)
        else findFirstAmazon rest
      | none => findFirstAmazon rest

/-- A Myntra product listing item (`li.product-base`). -/
structure MyntraCandidate where
  /-- The `textContent` of every descendant `span` and `div`, in document order. -/
  indicatorTexts : List String
  /-- href of `product.querySelector('a[data-refreshpage="true"]')`. -/
  linkHref : Option String
  deriving DecidableEq

/-- The Myntra sponsorship test: some indicator's lowercased trimmed text is
exactly `"sponsored"` or `"ad"`. -/
def myntraSponsored (c : MyntraCandidate) : Bool :=
  c.indicatorTexts.any (fun t =>
    let x := jsTrim t.toLower
    x = "sponsored" || x = "ad")

/-- Absolutize a Myntra href (the origin prefix carries a trailing slash in
the source). -/
def resolveMyntra (href : String) : String :=
  if jsStartsWith href "http" then href else "https://www.myntra.com/" ++ href

/-- The `findFirstNonSponsoredProduct` of the Myntra scraper: no product-path
marker is checked, any truthy (non-empty) href is accepted. -/
def findFirstMyntra : List MyntraCandidate → Option String
  | [] => none
  | c :: rest =>
    if myntraSponsored c then findFirstMyntra rest
    else
      match c.linkHref with
      | some href =>
        if href ≠ "" then some (resolveMyntra href)
        else findFirstMyntra rest
      | none => findFirstMyntra rest

/-! ## Detail extraction: shared helpers -/

/-- Character class `[\d.]`. -/
def digitDot (c : Char) : Bool := c.isDigit ∨ c = '.'

/-- Character class `[\d,]`. -/
def digitComma (c : Char) : Bool := c.isDigit ∨ c = ','

/-- The `replace(/T&C.*$/i, '')`: cut everything from the first case-insensitive
occurrence of `T&C` (the argument has already had its whitespace collapsed,
so `.` matches every remaining character). -/
def stripTandC : List Char → List Char
  | t :: '&' :: c :: rest =>
    if (t = 't' ∨ t = 'T') ∧ (c = 'c' ∨ c = 'C') then []
    else t :: stripTandC ('&' :: c :: rest)
  | c :: rest => c :: stripTandC rest
  | [] => []

/-- The `stripTandC` on a string. -/
def stripTandCStr (s : String) : String := ⟨stripTandC s.data⟩

/-- Dropping a prefix cannot lengthen a list. -/
theorem length_dropWhile_le (p : Char → Bool) (l : List Char) :
    (l.dropWhile p).length ≤ l.length := by
  induction l with
  | nil => simp [List.dropWhile]
  | cons c rest ih =>
    by_cases h : p c
    · simp only [List.dropWhile, h, List.length_cons]
      omega
    · simp [List.dropWhile, h]

/-- The `match(/([\d,]+)\s*Kw/)`, capture 1: the first maximal `[\d,]` run that
is followed, after optional whitespace, by the literal keyword. -/
def findNumBefore (kw : List Char) : List Char → Option (List Char)
  | [] => none
  | c :: rest =>
    if digitComma c then
      let run := c :: rest.takeWhile digitComma
      let after := rest.dropWhile digitComma
      if isPrefixOfCL kw (after.dropWhile jsWs) then some run
      else findNumBefore kw after
    else findNumBefore kw rest
  termination_by l => l.length
  decreasing_by
    · have h := length_dropWhile_le digitComma rest
      simp only [List.length_cons]
      omega
    · simp only [List.length_cons]
      omega

/-! ## Flipkart: detail extraction -/

/-- The character class `[‚Çπ,]` of the Flipkart price/MRP cleanup (the
mojibake rupee sign plus comma). -/
def flipkartRupeeClass (c : Char) : Bool :=
  c = '‚' ∨ c = 'Ç' ∨ c = 'π' ∨ c = ','

/-- The character class `[-%\soff]` of the Flipkart discount-badge cleanup. -/
def flipkartDiscountClass (c : Char) : Bool :=
  c = '-' ∨ c = '%' ∨ c = 'o' ∨ c = 'f' ∨ jsWs c

/-- A rendered Flipkart product page, as seen by `extractProductDetails`:
the outcome of each of its DOM queries. -/
structure FlipkartPage where
  /-- The `h1._6EBuvT span.VU-ZEz, span.B_NuCI, h1.yhB1nd` text. -/
  titleText : Option String
  /-- The `div.Nx9bqj, div._30jeq3._16Jk6d, div._25b18c ._30jeq3` text. -/
  priceText : Option String
  /-- The `div.yRaY8j, div._3I9_wc._2p6lqe, div._25b18c ._3I9_wc` text. -/
  mrpText : Option String
  /-- The `div.UkUFwK span, div._3Ay6Sb span` text. -/
  discountText : Option String
  /-- The `div.XQDdHH, div._3LWZlK, div._2d4LTz` text. -/
  ratingText : Option String
  /-- The `span.Wphh3N, span._2_R_DZ` text. -/
  ratingsReviewsText : Option String
  /-- texts of `li.kF1Ml8, li._16eBzU, div._3c5u7X`, in document order. -/
  offerTexts : List String
  /-- The `#sellerName span, div.yeLeBC span, div._1RLviY` text. -/
  sellerText : Option String
  /-- The `div._2JC05C span, div._3jaf0C, button.QqFHMw:disabled`: text and
  `disabled` property (falsy for non-button elements). -/
  availElem : Option (String × Bool)
  /-- The `button.QqFHMw.vslbG+:not(:disabled) ≠ null`. -/
  cartBtnExists : Bool
  /-- The `div.Y8v7Fl, div._2VIMRi span, div.YhUgfO` text. -/
  deliveryText : Option String

/-- The raw record built by the Flipkart `extractProductDetails`
(`productLink` is attached afterwards by `scrapeProduct`). -/
structure FlipkartDetails where
  title : String
  price : Option ℚ
  mrp : Option ℚ
  discount : Option ℤ
  rating : Option ℚ
  totalRatings : Option ℤ
  totalReviews : Option ℤ
  offers : List String
  seller : Option String
  availability : Option String
  delivery : Option String
  productLink : Option String := none
  deriving DecidableEq

/-- The `Math.round(((mrp - price) / mrp) * 100)`. -/
def computedDiscount (pv mv : ℚ) : ℤ := jsRound (qmul (qdiv (qsub mv pv) mv) 100)

/-- The modelled discount is the specification's formula
`round((mrp − price) / mrp × 100)`. -/
theorem computedDiscount_eq (pv mv : ℚ) :
    computedDiscount pv mv = round ((mv - pv) / mv * 100) := by
  rw [computedDiscount, jsRound_eq, qmul_eq, qdiv_eq, qsub_eq]

/-- The Flipkart discount-badge fallback branch. -/
def flipkartBadgeDiscount (discountText : Option String) : Option ℤ :=
  discountText.bind fun t => parseInt? (jsTrim (stripChars flipkartDiscountClass t))

/-- One iteration of the Flipkart offer-collection loop. -/
def flipkartOfferStep (acc : List String) (t : String) : List String :=
  let offerText := collapseWs (jsTrim t)
  if offerText ≠ "" ∧ offerText.length > 10 then
    let cleanText := jsTrim (stripTandCStr offerText)
    if cleanText ≠ "" ∧ ¬ acc.contains cleanText then acc ++ [cleanText] else acc
  else acc

/-- The Flipkart offer collection: the loop runs over the first
`min(length, 3)` offer elements, pushes deduplicated cleaned texts, and the
result is `slice(0, 3)`d. -/
def flipkartOffers (texts : List String) : List String :=
  ((texts.take 3).foldl flipkartOfferStep []).take 3

/-- The Flipkart seller-name cleanup: capture of `/^([^0-9‚òÖ]+)/` (the
class holds the mojibake of a star), trimmed; the whole text when the
regex does not match. -/
def flipkartSellerName (raw : String) : String :=
  let sellerText := jsTrim raw
  let pre := sellerText.data.takeWhile fun c =>
    ¬ c.isDigit ∧ c ≠ '‚' ∧ c ≠ 'ò' ∧ c ≠ 'Ö'
  if pre.isEmpty then sellerText else jsTrim ⟨pre⟩

/-- The Flipkart availability logic. -/
def flipkartAvailability (availElem : Option (String × Bool)) (cartBtnExists : Bool) :
    Option String :=
  match availElem with
  | some (txt, disabled) =>
    if containsSub txt "Add to cart" ∧ disabled then some "Out of Stock"
    else some "In Stock"
  | none => if cartBtnExists then some "In Stock" else some "Check availability"

/-- The `result.price` of the Flipkart extraction. -/
def flipkartPrice (p : FlipkartPage) : Option ℚ :=
  p.priceText.bind fun t => parseFloat? (jsTrim (stripChars flipkartRupeeClass t))

/-- The `result.mrp` of the Flipkart extraction. -/
def flipkartMrp (p : FlipkartPage) : Option ℚ :=
  p.mrpText.bind fun t => parseFloat? (jsTrim (stripChars flipkartRupeeClass t))

/-- The `result.discount` of the Flipkart extraction: computed from truthy
price and MRP (`result.price && result.mrp`), otherwise parsed from the
discount badge. -/
def flipkartDiscount (p : FlipkartPage) : Option ℤ :=
  match flipkartPrice p, flipkartMrp p with
  | some pv, some mv =>
    if pv = 0 ∨ mv = 0 then flipkartBadgeDiscount p.discountText
    else some (computedDiscount pv mv)
  | _, _ => flipkartBadgeDiscount p.discountText

/-- The Flipkart `extractProductDetails`, line by line. -/
def extractFlipkart (p : FlipkartPage) : FlipkartDetails :=
  { title := (p.titleText.map jsTrim).getD ""
    price := flipkartPrice p
    mrp := flipkartMrp p
    discount := flipkartDiscount p
    rating := p.ratingText.bind fun t =>
      (firstRun digitDot (jsTrim t).data).bind parseFloat?
    totalRatings := p.ratingsReviewsText.bind fun t =>
      (findNumBefore "Ratings".data (jsTrim t).data).bind fun run =>
        parseIntChars (run.filter (· ≠ ','))
    totalReviews := p.ratingsReviewsText.bind fun t =>
      (findNumBefore "Reviews".data (jsTrim t).data).bind fun run =>
        parseIntChars (run.filter (· ≠ ','))
    offers := flipkartOffers p.offerTexts
    seller := p.sellerText.map flipkartSellerName
    availability := flipkartAvailability p.availElem p.cartBtnExists
    delivery := p.deliveryText.map jsTrim }

/-! ## Myntra: detail extraction -/

/-- The character class `[₹,\s]` of the Myntra price cleanup. -/
def myntraPriceClass (c : Char) : Bool := c = '₹' ∨ c = ',' ∨ jsWs c

/-- The character class `[₹,\sMRP]` of the Myntra MRP cleanup. -/
def myntraMrpClass (c : Char) : Bool :=
  c = '₹' ∨ c = ',' ∨ c = 'M' ∨ c = 'R' ∨ c = 'P' ∨ jsWs c

/-- The character class `[,\sk]` with the `i` flag, of the Myntra
ratings-count cleanup. -/
def myntraCountClass (c : Char) : Bool := c = ',' ∨ c = 'k' ∨ c = 'K' ∨ jsWs c

/-- A rendered Myntra product page, as seen by `extractProductDetails`. -/
structure MyntraPage where
  /-- The `.pdp-title` text. -/
  brandText : Option String
  /-- The `.pdp-name` text. -/
  titleText : Option String
  /-- The `.pdp-price strong` text. -/
  priceText : Option String
  /-- The `.pdp-mrp` text. -/
  mrpText : Option String
  /-- The `.pdp-discount` text. -/
  discountText : Option String
  /-- The `.index-overallRating div` text. -/
  ratingText : Option String
  /-- The `.index-ratingsCount` text. -/
  ratingsCountText : Option String
  /-- for each `.pdp-offers-offer, .pdp-offers-offerLikeBestPrice` element in
  document order, the text of its `.pdp-offers-offerTitle` child (if any). -/
  offerTitleTexts : List (Option String)
  /-- The `.supplier-productSellerName` text. -/
  sellerText : Option String
  /-- for each `.size-buttons-size-button` element in document order, the
  text of its `.size-buttons-unified-size` child (if any). -/
  sizeTexts : List (Option String)

/-- The raw record built by the Myntra `extractProductDetails`. -/
structure MyntraDetails where
  title : String
  brand : String
  price : Option ℚ
  mrp : Option ℚ
  discount : Option ℤ
  rating : Option ℚ
  totalRatings : Option ℚ
  offers : List String
  seller : Option String
  sizes : List String
  deriving DecidableEq

/-- The Myntra ratings-count logic: strip `[,\sk]` case-insensitively, take
the first `[\d.]+` run, then — keyed on the presence of a decimal point
alone — multiply a `parseFloat` by 1000, else `parseInt`. -/
def myntraTotalRatings (t : String) : Option ℚ :=
  let stripped := stripChars myntraCountClass t
  (firstRun digitDot stripped.data).bind fun m =>
    if m.data.contains '.' then (parseFloat? m).map (qmul · 1000)
    else (parseInt? m).map fun z => (z : ℚ)

/-- One iteration of the Myntra offer loop (no deduplication). -/
def myntraOfferStep (acc : List String) (ot : Option String) : List String :=
  match ot with
  | none => acc
  | some t =>
    let offerText := collapseWs (jsTrim t)
    if offerText ≠ "" ∧ offerText.length > 10 then acc ++ [offerText] else acc

/-- The Myntra offer collection. -/
def myntraOffers (l : List (Option String)) : List String :=
  ((l.take 3).foldl myntraOfferStep []).take 3

/-- The Myntra `extractProductDetails`, line by line. -/
def extractMyntra (p : MyntraPage) : MyntraDetails :=
  { title := (p.titleText.map jsTrim).getD ""
    brand := (p.brandText.map jsTrim).getD ""
    price := p.priceText.bind fun t =>
      parseFloat? (jsTrim (stripChars myntraPriceClass t))
    mrp := p.mrpText.bind fun t =>
      parseFloat? (jsTrim (stripChars myntraMrpClass t))
    discount := p.discountText.bind fun t =>
      (firstRun Char.isDigit t.data).bind parseInt?
    rating := p.ratingText.bind fun t => parseFloat? (jsTrim t)
    totalRatings := p.ratingsCountText.bind myntraTotalRatings
    offers := myntraOffers p.offerTitleTexts
    seller := p.sellerText.map jsTrim
    sizes := p.sizeTexts.filterMap (Option.map jsTrim) }

/-! ## Amazon: detail extraction -/

/-- The character class `[₹,]` of the Amazon price/MRP cleanup. -/
def amazonRupeeClass (c : Char) : Bool := c = '₹' ∨ c = ','

/-- The character class `[-%]` of the Amazon savings-badge cleanup. -/
def amazonSavingsClass (c : Char) : Bool := c = '-' ∨ c = '%'

/-- The character class `[,\s]` of the Amazon ratings-count cleanup. -/
def amazonCountClass (c : Char) : Bool := c = ',' ∨ jsWs c

/-- A rendered Amazon product page, as seen by `extractProductDetails`. -/
structure AmazonPage where
  /-- The `#productTitle` text. -/
  titleText : Option String
  /-- The `.a-price.aok-align-center .a-price-whole` text. -/
  priceWholeAligned : Option String
  /-- The `.a-price-whole` text. -/
  priceWhole : Option String
  /-- The `.a-price .a-offscreen` text. -/
  priceOffscreen : Option String
  /-- The `.a-price.a-text-price .a-offscreen` or `.basisPrice .a-offscreen`
  text (the source takes the first query that matches). -/
  mrpText : Option String
  /-- The `.savingsPercentage` text. -/
  savingsText : Option String
  /-- text of the first matching rating element (three alternative
  selectors, first match taken). -/
  ratingText : Option String
  /-- The `#acrCustomerReviewText` or `[data-hook="total-review-count"]` text. -/
  totalRatingsText : Option String
  /-- texts of `.promoPriceBlockMessage, #productPromotions_feature_div .a-section`. -/
  offerBadgeTexts : List String
  /-- texts of `[data-a-badge-color="sx-coupon"], .promoBadge, #applicablePromotionList .a-list-item`. -/
  couponTexts : List String
  /-- texts of `.a-section.a-spacing-small`. -/
  bankOfferTexts : List String
  /-- text of the first matching seller element (three alternatives). -/
  sellerText : Option String
  /-- The `#availability span` text. -/
  availabilityText : Option String

/-- The raw record built by the Amazon `extractProductDetails`
(`productLink` is attached afterwards by `scrapeProduct`). -/
structure AmazonDetails where
  title : String
  price : Option ℚ
  mrp : Option ℚ
  discount : Option ℤ
  rating : Option ℚ
  totalRatings : Option ℤ
  offers : List String
  seller : Option String
  availability : Option String
  productLink : Option String := none
  deriving DecidableEq

/-- One push attempt of the Amazon offer loops (groups 1 and 2). -/
def amazonOfferStep (acc : List String) (t : String) : List String :=
  let offerText := collapseWs (jsTrim t)
  if offerText ≠ "" ∧ offerText.length > 10 then acc ++ [offerText] else acc

/-- Amazon offer group 1: the first `min(length, 3)` badge texts. -/
def amazonGroup1 (l : List String) : List String :=
  (l.take 3).foldl amazonOfferStep []

/-- Amazon offer group 2: the loop bound `i < min(couponElements.length,
3 - offers.length)` re-evaluates `offers.length` at every iteration, so the
bound shrinks as offers are pushed. -/
def amazonGroup2 : List String → ℕ → ℕ → List String → List String
  | [], _, _, offers => offers
  | t :: rest, i, total, offers =>
    if i < min total (3 - offers.length) then
      amazonGroup2 rest (i + 1) total (amazonOfferStep offers t)
    else offers

/-- Amazon offer group 3 (bank offers): walk all sections, break at three
offers, push texts mentioning offer/cashback/discount, truncated to 200
characters. -/
def amazonGroup3 : List String → List String → List String
  | [], offers => offers
  | t :: rest, offers =>
    if offers.length ≥ 3 then offers
    else
      let lc := t.toLower
      if (containsSub lc "offer" || containsSub lc "cashback" ||
          containsSub lc "discount") ∧ t.length > 20 then
        amazonGroup3 rest (offers ++ [(⟨(collapseWs (jsTrim t)).data.take 200⟩ : String)])
      else amazonGroup3 rest offers

/-- The Amazon offer collection across the three prioritized groups. -/
def amazonOffers (p : AmazonPage) : List String :=
  let o1 := amazonGroup1 p.offerBadgeTexts
  let o2 := if o1.length < 3 then amazonGroup2 p.couponTexts 0 p.couponTexts.length o1 else o1
  let o3 := if o2.length < 3 then amazonGroup3 p.bankOfferTexts o2 else o2
  o3.take 3

/-- The `result.price` of the Amazon extraction: the aligned or plain
`.a-price-whole` element when present, else the offscreen price. -/
def amazonPrice (p : AmazonPage) : Option ℚ :=
  match p.priceWholeAligned <|> p.priceWhole with
  | some t => parseFloat? (jsTrim (stripChars amazonRupeeClass t))
  | none => p.priceOffscreen.bind fun t =>
      parseFloat? (jsTrim (stripChars amazonRupeeClass t))

/-- The `result.mrp` of the Amazon extraction. -/
def amazonMrp (p : AmazonPage) : Option ℚ :=
  p.mrpText.bind fun t => parseFloat? (jsTrim (stripChars amazonRupeeClass t))

/-- The Amazon savings-badge fallback branch. -/
def amazonBadgeDiscount (savingsText : Option String) : Option ℤ :=
  savingsText.bind fun t => parseInt? (stripChars amazonSavingsClass t)

/-- The `result.discount` of the Amazon extraction: computed from truthy price
and MRP, otherwise parsed from `.savingsPercentage`. -/
def amazonDiscount (p : AmazonPage) : Option ℤ :=
  match amazonPrice p, amazonMrp p with
  | some pv, some mv =>
    if pv = 0 ∨ mv = 0 then amazonBadgeDiscount p.savingsText
    else some (computedDiscount pv mv)
  | _, _ => amazonBadgeDiscount p.savingsText

/-- The Amazon `extractProductDetails`, line by line. -/
def extractAmazon (p : AmazonPage) : AmazonDetails :=
  { title := (p.titleText.map jsTrim).getD ""
    price := amazonPrice p
    mrp := amazonMrp p
    discount := amazonDiscount p
    rating := p.ratingText.bind fun t => (firstRun digitDot t.data).bind parseFloat?
    totalRatings := p.totalRatingsText.bind fun t =>
      (firstRun Char.isDigit (stripChars amazonCountClass t).data).bind parseInt?
    offers := amazonOffers p
    seller := p.sellerText.map jsTrim
    availability := p.availabilityText.map jsTrim }

/-! ## The `scrapeProduct` pipeline

Each suspending step that can throw is an `Except String Unit` carried by an
environment record (`error e` = the step threw with message `e`).  The run
outcome additionally records every product-page navigation attempted and
whether `browser.close()` (the `finally` block) ran; the `finally` only
exists once `puppeteer.launch` has returned a browser. -/

/-- The error message thrown when no organic candidate yields a URL. -/
def noOrganicMsg : String := "No non-sponsored products found"

/-- Outcome of one `scrapeProduct` call. -/
structure RunOutcome (δ : Type) where
  /-- the value returned, or the propagated error message. -/
  result : Except String δ
  /-- URLs of product pages navigated to, in order. -/
  productNavs : List String
  /-- did `browser.close()` run? -/
  browserClosed : Bool

/-- Environment of one Flipkart `scrapeProduct` call. -/
structure FlipkartEnv where
  /-- The `puppeteer.launch` (with `newPage`/viewport/user-agent setup). -/
  launch : Except String Unit
  /-- The `page.goto(searchUrl)`. -/
  gotoSearch : Except String Unit
  /-- The `page.waitForSelector('div.slAVV4, div.tUxRFH, div._75nlfW')`. -/
  waitResults : Except String Unit
  /-- the rendered search-result containers, in page order. -/
  candidates : List FlipkartCandidate
  /-- The `page.goto(firstProductUrl)`. -/
  gotoProduct : Except String Unit
  /-- The `page.waitForSelector('h1._6EBuvT span.VU-ZEz, span.B_NuCI')`. -/
  waitTitle : Except String Unit
  /-- the rendered product page. -/
  page : FlipkartPage

/-- The Flipkart `scrapeProduct`: the `try` body as a linear sequence of
steps, the `finally` closing the browser whenever launch succeeded. -/
def scrapeFlipkart (env : FlipkartEnv) : RunOutcome FlipkartDetails :=
  match env.launch with
  | .error e => ⟨.error e, [], false⟩
  | .ok _ =>
    let body : Except String FlipkartDetails × List String :=
      match env.gotoSearch with
      | .error e => (.error e, [])
      | .ok _ =>
        match env.waitResults with
        | .error e => (.error e, [])
        | .ok _ =>
          match findFirstFlipkart env.candidates with
          | none => (.error noOrganicMsg, [])
          | some url =>
            match env.gotoProduct with
            | .error e => (.error e, [url])
            | .ok _ =>
              match env.waitTitle with
              | .error e => (.error e, [url])
              | .ok _ =>
                (.ok { extractFlipkart env.page with productLink := some url }, [url])
    ⟨body.1, body.2, true⟩

/-- Environment of one Amazon `scrapeProduct` call. -/
structure AmazonEnv where
  /-- The `puppeteer.launch` (with page setup). -/
  launch : Except String Unit
  /-- The `page.goto(searchUrl)`. -/
  gotoSearch : Except String Unit
  /-- The `page.waitForSelector('[data-component-type="s-search-result"]')`. -/
  waitResults : Except String Unit
  /-- the rendered search results, in page order. -/
  candidates : List AmazonCandidate
  /-- The `page.goto(firstProductUrl)`. -/
  gotoProduct : Except String Unit
  /-- The `page.waitForSelector('#productTitle')`. -/
  waitTitle : Except String Unit
  /-- the rendered product page. -/
  page : AmazonPage

/-- The Amazon `scrapeProduct`. -/
def scrapeAmazon (env : AmazonEnv) : RunOutcome AmazonDetails :=
  match env.launch with
  | .error e => ⟨.error e, [], false⟩
  | .ok _ =>
    let body : Except String AmazonDetails × List String :=
      match env.gotoSearch with
      | .error e => (.error e, [])
      | .ok _ =>
        match env.waitResults with
        | .error e => (.error e, [])
        | .ok _ =>
          match findFirstAmazon env.candidates with
          | none => (.error noOrganicMsg, [])
          | some url =>
            match env.gotoProduct with
            | .error e => (.error e, [url])
            | .ok _ =>
              match env.waitTitle with
              | .error e => (.error e, [url])
              | .ok _ =>
                (.ok { extractAmazon env.page with productLink := some url }, [url])
    ⟨body.1, body.2, true⟩

/-- Environment of one Myntra `scrapeProduct` call (interactive search
strategy: home page, search bar, type-and-submit, navigation wait). -/
structure MyntraEnv where
  /-- The `puppeteer.launch` (with page setup). -/
  launch : Except String Unit
  /-- The `page.goto('https://www.myntra.com/')`. -/
  gotoHome : Except String Unit
  /-- The `page.waitForSelector('.desktop-searchBar')`. -/
  waitSearchBar : Except String Unit
  /-- The `page.click` + `page.type` + `keyboard.press('Enter')`. -/
  searchInteract : Except String Unit
  /-- The `page.waitForNavigation`. -/
  waitNavigation : Except String Unit
  /-- The `page.waitForSelector('li.product-base')`. -/
  waitListing : Except String Unit
  /-- the rendered product listing, in page order. -/
  candidates : List MyntraCandidate
  /-- The `page.goto(firstProductUrl)`. -/
  gotoProduct : Except String Unit
  /-- The `page.waitForSelector('.pdp-title')`. -/
  waitTitle : Except String Unit
  /-- the rendered product page. -/
  page : MyntraPage

/-- The Myntra `scrapeProduct` (no `productLink` is attached to the
record in this scraper). -/
def scrapeMyntra (env : MyntraEnv) : RunOutcome MyntraDetails :=
  match env.launch with
  | .error e => ⟨.error e, [], false⟩
  | .ok _ =>
    let body : Except String MyntraDetails × List String :=
      match env.gotoHome with
      | .error e => (.error e, [])
      | .ok _ =>
        match env.waitSearchBar with
        | .error e => (.error e, [])
        | .ok _ =>
          match env.searchInteract with
          | .error e => (.error e, [])
          | .ok _ =>
            match env.waitNavigation with
            | .error e => (.error e, [])
            | .ok _ =>
              match env.waitListing with
              | .error e => (.error e, [])
              | .ok _ =>
                match findFirstMyntra env.candidates with
                | none => (.error noOrganicMsg, [])
                | some url =>
                  match env.gotoProduct with
                  | .error e => (.error e, [url])
                  | .ok _ =>
                    match env.waitTitle with
                    | .error e => (.error e, [url])
                    | .ok _ => (.ok (extractMyntra env.page), [url])
    ⟨body.1, body.2, true⟩

/-! ## Controllers: output normalization and the response envelope -/

/-- The success/error wrapper every controller returns. -/
inductive Envelope (α : Type) where
  | ok (data : α)
  | err (error : String)

/-- Price field of the envelope: the prefixed locale-formatted string when the raw value is truthy, else the sentinel string. -/
def formatPriceField (pre : String) (v : Option ℚ) : String :=
  if jsTruthyQ v then pre ++ formatINR (v.getD 0) else "Not available"

/-- MRP field of the envelope: the prefixed locale-formatted string when the raw value is truthy, else null. -/
def formatMrpField (pre : String) (v : Option ℚ) : Option String :=
  if jsTruthyQ v then some (pre ++ formatINR (v.getD 0)) else none

/-- Discount field of the envelope: the percent string when the raw value is truthy, else null. -/
def formatDiscountField (v : Option ℤ) : Option String :=
  if jsTruthyZ v then some (toString (v.getD 0) ++ "%") else none

/-- String-or-default: the JS `seller || dflt` on a nullable string. -/
def jsStrOr (v : Option String) (dflt : String) : String :=
  match v with
  | some s => if s ≠ "" then s else dflt
  | none => dflt

/-- Offers field of the envelope: the list itself when non-empty, else the sentinel single-entry list. -/
def topOffersField (offers : List String) : List String :=
  if offers.length > 0 then offers else ["No offers available"]

/-- The `rating` sub-object of the Flipkart envelope. -/
structure FlipkartRating where
  stars : Option ℚ
  totalRatings : Option ℤ
  totalReviews : Option ℤ

/-- The `data` object of a successful Flipkart envelope (the formatted
price prefix is the source file's mojibake rupee sign). -/
structure FlipkartData where
  title : String
  price : String
  mrp : Option String
  discount : Option String
  rating : FlipkartRating
  topOffers : List String
  seller : String
  availability : Option String
  delivery : Option String
  productLink : Option String

/-- The Flipkart controller `flipkartProductScrapper`. -/
def flipkartProductScrapper (env : FlipkartEnv) : Envelope FlipkartData :=
  match (scrapeFlipkart env).result with
  | .error e => .err e
  | .ok d =>
    .ok { title := d.title
          price := formatPriceField "‚Çπ" d.price
          mrp := formatMrpField "‚Çπ" d.mrp
          discount := formatDiscountField d.discount
          rating := ⟨d.rating, d.totalRatings, d.totalReviews⟩
          topOffers := topOffersField d.offers
          seller := jsStrOr d.seller "Not specified"
          availability := d.availability
          delivery := d.delivery
          productLink := d.productLink }

/-- The `rating` sub-object of the Amazon envelope (the raw `totalRatings`
is emitted under the key `totalReviews`). -/
structure AmazonRating where
  stars : Option ℚ
  totalReviews : Option ℤ

/-- The `data` object of a successful Amazon envelope. -/
structure AmazonData where
  title : String
  price : String
  mrp : Option String
  discount : Option String
  rating : AmazonRating
  topOffers : List String
  seller : String
  availability : Option String
  productLink : Option String

/-- The Amazon controller `amazonProductScrapper`. -/
def amazonProductScrapper (env : AmazonEnv) : Envelope AmazonData :=
  match (scrapeAmazon env).result with
  | .error e => .err e
  | .ok d =>
    .ok { title := d.title
          price := formatPriceField "₹" d.price
          mrp := formatMrpField "₹" d.mrp
          discount := formatDiscountField d.discount
          rating := ⟨d.rating, d.totalRatings⟩
          topOffers := topOffersField d.offers
          seller := jsStrOr d.seller "Not specified"
          availability := d.availability
          productLink := d.productLink }

/-! ## Helper lemmas: characterizing the sponsored filters -/

/-- What the Flipkart loop body does to one candidate: the URL it would
return, or `none` when the loop continues. -/
def flipkartAccept (c : FlipkartCandidate) : Option String :=
  if flipkartSponsored c then none
  else
    match c.linkHref with
    | some href =>
      if href ≠ "" ∧ containsSub href "/p/" then some (resolveFlipkart href) else none
    | none => none

/-- What the Amazon loop body does to one candidate. -/
def amazonAccept (c : AmazonCandidate) : Option String :=
  if amazonSponsored c then none
  else
    match c.linkHref with
    | some href =>
      if href ≠ "" ∧ containsSub href "/dp/" then some (resolveAmazon href) else none
    | none => none

/-- What the Myntra loop body does to one candidate. -/
def myntraAccept (c : MyntraCandidate) : Option String :=
  if myntraSponsored c then none
  else
    match c.linkHref with
    | some href => if href ≠ "" then some (resolveMyntra href) else none
    | none => none

/-- The Flipkart filter is the first-hit scan of its loop body. -/
theorem findFirstFlipkart_eq_findSome (cs : List FlipkartCandidate) :
    findFirstFlipkart cs = cs.findSome? flipkartAccept := by
  induction cs with
  | nil => rfl
  | cons c rest ih =>
    rw [List.findSome?_cons]
    by_cases hs : flipkartSponsored c
    · simp [findFirstFlipkart, flipkartAccept, hs, ih]
    · cases hl : c.linkHref with
      | none => simp [findFirstFlipkart, flipkartAccept, hs, hl, ih]
      | some href =>
        by_cases hv : href ≠ "" ∧ containsSub href "/p/"
        · simp [findFirstFlipkart, flipkartAccept, hs, hl, hv]
        · simp [findFirstFlipkart, flipkartAccept, hs, hl, hv, ih]

/-- The Amazon filter is the first-hit scan of its loop body. -/
theorem findFirstAmazon_eq_findSome (cs : List AmazonCandidate) :
    findFirstAmazon cs = cs.findSome? amazonAccept := by
  induction cs with
  | nil => rfl
  | cons c rest ih =>
    rw [List.findSome?_cons]
    by_cases hs : amazonSponsored c
    · simp [findFirstAmazon, amazonAccept, hs, ih]
    · cases hl : c.linkHref with
      | none => simp [findFirstAmazon, amazonAccept, hs, hl, ih]
      | some href =>
        by_cases hv : href ≠ "" ∧ containsSub href "/dp/"
        · simp [findFirstAmazon, amazonAccept, hs, hl, hv]
        · simp [findFirstAmazon, amazonAccept, hs, hl, hv, ih]

/-- The Myntra filter is the first-hit scan of its loop body. -/
theorem findFirstMyntra_eq_findSome (cs : List MyntraCandidate) :
    findFirstMyntra cs = cs.findSome? myntraAccept := by
  induction cs with
  | nil => rfl
  | cons c rest ih =>
    rw [List.findSome?_cons]
    by_cases hs : myntraSponsored c
    · simp [findFirstMyntra, myntraAccept, hs, ih]
    · cases hl : c.linkHref with
      | none => simp [findFirstMyntra, myntraAccept, hs, hl, ih]
      | some href =>
        by_cases hv : href ≠ ""
        · simp [findFirstMyntra, myntraAccept, hs, hl, hv]
        · simp [findFirstMyntra, myntraAccept, hs, hl, hv, ih]

/-- Unfolding a successful Flipkart loop body. -/
theorem flipkartAccept_eq_some {c : FlipkartCandidate} {u : String}
    (h : flipkartAccept c = some u) :
    flipkartSponsored c = false ∧ ∃ href, c.linkHref = some href ∧ href ≠ "" ∧
      containsSub href "/p/" = true ∧ u = resolveFlipkart href := by
  by_cases hs : flipkartSponsored c
  · rw [flipkartAccept, if_pos hs] at h
    exact absurd h (by simp)
  · cases hl : c.linkHref with
    | none =>
      rw [flipkartAccept, if_neg hs, hl] at h
      exact absurd h (by simp)
    | some href =>
      by_cases hv : href ≠ "" ∧ containsSub href "/p/"
      · have hacc : flipkartAccept c = some (resolveFlipkart href) := by
          rw [flipkartAccept, if_neg hs, hl]
          exact if_pos hv
        rw [hacc] at h
        exact ⟨Bool.eq_false_iff.mpr hs, href, rfl, hv.1, hv.2,
          (Option.some_injective _ h).symm⟩
      · have hacc : flipkartAccept c = none := by
          rw [flipkartAccept, if_neg hs, hl]
          exact if_neg hv
        rw [hacc] at h
        exact absurd h (by simp)

/-- Unfolding a successful Amazon loop body. -/
theorem amazonAccept_eq_some {c : AmazonCandidate} {u : String}
    (h : amazonAccept c = some u) :
    amazonSponsored c = false ∧ ∃ href, c.linkHref = some href ∧ href ≠ "" ∧
      containsSub href "/dp/" = true ∧ u = resolveAmazon href := by
  by_cases hs : amazonSponsored c
  · rw [amazonAccept, if_pos hs] at h
    exact absurd h (by simp)
  · cases hl : c.linkHref with
    | none =>
      rw [amazonAccept, if_neg hs, hl] at h
      exact absurd h (by simp)
    | some href =>
      by_cases hv : href ≠ "" ∧ containsSub href "/dp/"
      · have hacc : amazonAccept c = some (resolveAmazon href) := by
          rw [amazonAccept, if_neg hs, hl]
          exact if_pos hv
        rw [hacc] at h
        exact ⟨Bool.eq_false_iff.mpr hs, href, rfl, hv.1, hv.2,
          (Option.some_injective _ h).symm⟩
      · have hacc : amazonAccept c = none := by
          rw [amazonAccept, if_neg hs, hl]
          exact if_neg hv
        rw [hacc] at h
        exact absurd h (by simp)

/-- Unfolding a successful Myntra loop body. -/
theorem myntraAccept_eq_some {c : MyntraCandidate} {u : String}
    (h : myntraAccept c = some u) :
    myntraSponsored c = false ∧ ∃ href, c.linkHref = some href ∧ href ≠ "" ∧
      u = resolveMyntra href := by
  by_cases hs : myntraSponsored c
  · rw [myntraAccept, if_pos hs] at h
    exact absurd h (by simp)
  · cases hl : c.linkHref with
    | none =>
      rw [myntraAccept, if_neg hs, hl] at h
      exact absurd h (by simp)
    | some href =>
      by_cases hv : href ≠ ""
      · have hacc : myntraAccept c = some (resolveMyntra href) := by
          rw [myntraAccept, if_neg hs, hl]
          exact if_pos hv
        rw [hacc] at h
        exact ⟨Bool.eq_false_iff.mpr hs, href, rfl, hv,
          (Option.some_injective _ h).symm⟩
      · have hacc : myntraAccept c = none := by
          rw [myntraAccept, if_neg hs, hl]
          exact if_neg hv
        rw [hacc] at h
        exact absurd h (by simp)

/-- A returned Flipkart URL comes from some candidate the loop accepted. -/
theorem findFirstFlipkart_mem {cs : List FlipkartCandidate} {u : String}
    (h : findFirstFlipkart cs = some u) : ∃ c ∈ cs, flipkartAccept c = some u := by
  rw [findFirstFlipkart_eq_findSome] at h
  exact List.exists_of_findSome?_eq_some h

/-- A returned Amazon URL comes from some candidate the loop accepted. -/
theorem findFirstAmazon_mem {cs : List AmazonCandidate} {u : String}
    (h : findFirstAmazon cs = some u) : ∃ c ∈ cs, amazonAccept c = some u := by
  rw [findFirstAmazon_eq_findSome] at h
  exact List.exists_of_findSome?_eq_some h

/-- A returned Myntra URL comes from some candidate the loop accepted. -/
theorem findFirstMyntra_mem {cs : List MyntraCandidate} {u : String}
    (h : findFirstMyntra cs = some u) : ∃ c ∈ cs, myntraAccept c = some u := by
  rw [findFirstMyntra_eq_findSome] at h
  exact List.exists_of_findSome?_eq_some h

/-- A list of all-sponsored Flipkart candidates yields no URL. -/
theorem findFirstFlipkart_none (cs : List FlipkartCandidate)
    (h : ∀ c ∈ cs, flipkartSponsored c = true) : findFirstFlipkart cs = none := by
  induction cs with
  | nil => rfl
  | cons c rest ih =>
    have hc := h c (List.mem_cons_self c rest)
    simp [findFirstFlipkart, hc, ih fun x hx => h x (List.mem_cons_of_mem c hx)]

/-- A list of all-sponsored Amazon candidates yields no URL. -/
theorem findFirstAmazon_none (cs : List AmazonCandidate)
    (h : ∀ c ∈ cs, amazonSponsored c = true) : findFirstAmazon cs = none := by
  induction cs with
  | nil => rfl
  | cons c rest ih =>
    have hc := h c (List.mem_cons_self c rest)
    simp [findFirstAmazon, hc, ih fun x hx => h x (List.mem_cons_of_mem c hx)]

/-! ## Helper lemmas: the Flipkart offer list is duplicate-free -/

/-- The Flipkart offer step preserves `Nodup`: it only appends an entry the
`!offers.includes(cleanText)` test has ruled out. -/
theorem flipkartOfferStep_nodup (acc : List String) (t : String) (h : acc.Nodup) :
    (flipkartOfferStep acc t).Nodup := by
  simp only [flipkartOfferStep]
  split
  · split
    · rename_i hcond
      refine List.nodup_append.mpr ⟨h, List.nodup_singleton _, ?_⟩
      intro a ha hb
      rw [List.mem_singleton] at hb
      subst hb
      exact hcond.2 (List.elem_eq_true_of_mem ha)
    · exact h
  · exact h

/-- Invariance of `Nodup` under the whole Flipkart offer fold. -/
theorem foldl_flipkartOfferStep_nodup (l acc : List String) (h : acc.Nodup) :
    (l.foldl flipkartOfferStep acc).Nodup := by
  induction l generalizing acc with
  | nil => exact h
  | cons t rest ih => exact ih _ (flipkartOfferStep_nodup acc t h)

/-- The Flipkart offer list has no duplicates. -/
theorem flipkartOffers_nodup (l : List String) : (flipkartOffers l).Nodup :=
  (List.take_sublist _ _).nodup (foldl_flipkartOfferStep_nodup _ _ List.nodup_nil)

/-! ## Helper lemmas: the field formatters, stated by truthiness branch -/

/-- The `formatPriceField` by cases on the raw value. -/
theorem formatPriceField_eq (pre : String) (v : Option ℚ) :
    formatPriceField pre v =
      match v with
      | some p => if p = 0 then "Not available" else pre ++ formatINR p
      | none => "Not available" := by
  cases v with
  | none => rfl
  | some p =>
    by_cases hp : p = 0 <;> simp [formatPriceField, jsTruthyQ, hp]

/-- The `formatMrpField` by cases on the raw value. -/
theorem formatMrpField_eq (pre : String) (v : Option ℚ) :
    formatMrpField pre v =
      match v with
      | some m => if m = 0 then none else some (pre ++ formatINR m)
      | none => none := by
  cases v with
  | none => rfl
  | some m =>
    by_cases hm : m = 0 <;> simp [formatMrpField, jsTruthyQ, hm]

/-- The `formatDiscountField` by cases on the raw value. -/
theorem formatDiscountField_eq (v : Option ℤ) :
    formatDiscountField v =
      match v with
      | some k => if k = 0 then none else some (toString k ++ "%")
      | none => none := by
  cases v with
  | none => rfl
  | some k =>
    by_cases hk : k = 0 <;> simp [formatDiscountField, jsTruthyZ, hk]

/-- The `jsStrOr` by cases on the raw value. -/
theorem jsStrOr_eq (v : Option String) (dflt : String) :
    jsStrOr v dflt =
      match v with
      | some s => if s = "" then dflt else s
      | none => dflt := by
  cases v with
  | none => rfl
  | some s =>
    by_cases hs : s = "" <;> simp [jsStrOr, hs]

/-- The `topOffersField` by cases on emptiness. -/
theorem topOffersField_eq (offers : List String) :
    topOffersField offers =
      if offers = [] then ["No offers available"] else offers := by
  cases offers <;> simp [topOffersField]

/-! ## Blank fixtures and envelope accessors used by concrete instances -/

/-- A Flipkart page on which every query came back empty. -/
def blankFlipkartPage : FlipkartPage :=
  { titleText := none, priceText := none, mrpText := none, discountText := none,
    ratingText := none, ratingsReviewsText := none, offerTexts := [],
    sellerText := none, availElem := none, cartBtnExists := false,
    deliveryText := none }

/-- A Myntra page on which every query came back empty. -/
def blankMyntraPage : MyntraPage :=
  { brandText := none, titleText := none, priceText := none, mrpText := none,
    discountText := none, ratingText := none, ratingsCountText := none,
    offerTitleTexts := [], sellerText := none, sizeTexts := [] }

/-- An organic Flipkart candidate with a valid product link. -/
def organicFlipkartCand : FlipkartCandidate :=
  { hasSponsoredBadge := false, parentSponsored := false, linkHref := some "/p/shoe" }

/-- Is the envelope the success case? -/
def envIsOk {α : Type} : Envelope α → Bool
  | .ok _ => true
  | .err _ => false

/-- The `rating.stars` of a successful Flipkart envelope. -/
def envRatingStars : Envelope FlipkartData → Option ℚ
  | .ok d => d.rating.stars
  | .err _ => none

/-- The `delivery` of a successful Flipkart envelope. -/
def envDelivery : Envelope FlipkartData → Option String
  | .ok d => d.delivery
  | .err _ => none

/-- The `discount` string of a successful Flipkart envelope. -/
def envDiscountStr : Envelope FlipkartData → Option String
  | .ok d => d.discount
  | .err _ => none

/-- The raw discount of a successful run outcome. -/
def runResultDiscount (r : RunOutcome FlipkartDetails) : Option (Option ℤ) :=
  match r.result with
  | .ok d => some d.discount
  | .error _ => none

/-! ## Claim C1: discount is recomputed whenever price and MRP are known -/

/-- C1 counterexample fixture: a Myntra product page whose price and MRP
are both extractable while the discount badge shows an inconsistent
figure. -/
def c1Page : MyntraPage :=
  { blankMyntraPage with priceText := some "₹100", mrpText := some "₹200",
                         discountText := some "10% OFF" }

/-- C1 is false as stated: the claim asserts the recomputation for all
three platform extractors, but the Myntra extractor always takes its
discount from the `.pdp-discount` badge — with extracted price 100 and MRP
200 (both non-null) and a badge reading `10% OFF`, the record's discount
is 10, not `round((200 − 100) / 200 × 100) = 50`. -/
theorem c1_counterexample :
    (extractMyntra c1Page).price = some 100 ∧
    (extractMyntra c1Page).mrp = some 200 ∧
    (extractMyntra c1Page).discount = some 10 ∧
    (extractMyntra c1Page).discount ≠ some (computedDiscount 100 200) := by
  refine ⟨?_, ?_, ?_, ?_⟩ <;> decide

/-- C1 (amended): for the Flipkart and Amazon extractors, whenever the
extracted price and MRP are both truthy (non-null and non-zero — the code
tests JS truthiness, not nullness), the record's discount equals
`round((mrp − price) / mrp × 100)` and is never a value parsed from a
discount-badge element; the Myntra extractor instead always parses the
discount badge, so its discount depends only on the badge text. -/
theorem c1_amended :
    (∀ (p : FlipkartPage) (pv mv : ℚ),
      (extractFlipkart p).price = some pv → pv ≠ 0 →
      (extractFlipkart p).mrp = some mv → mv ≠ 0 →
      (extractFlipkart p).discount = some (computedDiscount pv mv)) ∧
    (∀ (p : AmazonPage) (pv mv : ℚ),
      (extractAmazon p).price = some pv → pv ≠ 0 →
      (extractAmazon p).mrp = some mv → mv ≠ 0 →
      (extractAmazon p).discount = some (computedDiscount pv mv)) ∧
    (∀ p q : MyntraPage, p.discountText = q.discountText →
      (extractMyntra p).discount = (extractMyntra q).discount) := by
  refine ⟨?_, ?_, ?_⟩
  · intro p pv mv hp hpv hm hmv
    have hp' : flipkartPrice p = some pv := hp
    have hm' : flipkartMrp p = some mv := hm
    show flipkartDiscount p = _
    rw [flipkartDiscount, hp', hm']
    simp [hpv, hmv]
  · intro p pv mv hp hpv hm hmv
    have hp' : amazonPrice p = some pv := hp
    have hm' : amazonMrp p = some mv := hm
    show amazonDiscount p = _
    rw [amazonDiscount, hp', hm']
    simp [hpv, hmv]
  · intro p q h
    simp only [extractMyntra]
    rw [h]

/-- C1 witness fixture: a Flipkart page with price 2,999 and MRP 4,999 and
a stale badge reading 10%. -/
def c1WitPage : FlipkartPage :=
  { blankFlipkartPage with priceText := some "‚Çπ2,999",
                           mrpText := some "‚Çπ4,999",
                           discountText := some "10% off" }

/-- Witness for C1: on the fixture the recorded discount is the recomputed
40, not the badge's 10. -/
theorem c1_witness :
    (extractFlipkart c1WitPage).discount = some (computedDiscount 2999 4999) :=
  c1_amended.1 c1WitPage 2999 4999 (by decide) (by decide) (by decide) (by decide)

/-! ## Claim C2: the filter returns the first organic candidate's URL -/

/-- C2 fixture: an organic Amazon result with no link at all. -/
def c2CandA : AmazonCandidate :=
  { sponsoredByAttr := false, spanTexts := [], hasAdHolderClass := false,
    hasSponsoredListClass := false, hasSponsoredLabel := false, linkHref := none }

/-- C2 fixture: an organic Amazon result with a valid `/dp/` link. -/
def c2CandB : AmazonCandidate :=
  { sponsoredByAttr := false, spanTexts := [], hasAdHolderClass := false,
    hasSponsoredListClass := false, hasSponsoredLabel := false,
    linkHref := some "/dp/B01" }

/-- C2 is false as stated: with two signal-free candidates of which only
the second has a link, the filter returns the second candidate's URL, even
though the first candidate carries no sponsorship signal — so the filter
does not return "the href-derived URL of the first candidate for which no
signal is true". -/
theorem c2_counterexample :
    amazonSponsored c2CandA = false ∧ c2CandA.linkHref = none ∧
    findFirstAmazon [c2CandA, c2CandB] = some (resolveAmazon "/dp/B01") := by
  refine ⟨rfl, rfl, ?_⟩
  decide

/-- C2 (amended): on each platform the sponsored filter is the
deterministic first-hit scan, in original page order, of its loop body
(`List.findSome?` — no reordering or scoring), where the loop body accepts
a candidate exactly when it is signal-free *and* yields a valid href; in
particular a returned URL always comes from a candidate for which every
sponsorship signal is false, but a signal-free candidate without a valid
href is skipped in favour of later candidates. -/
theorem c2_amended :
    (∀ cs : List AmazonCandidate, findFirstAmazon cs = cs.findSome? amazonAccept) ∧
    (∀ (cs : List AmazonCandidate) (u : String), findFirstAmazon cs = some u →
      ∃ c ∈ cs, amazonSponsored c = false ∧ amazonAccept c = some u) ∧
    (∀ cs : List FlipkartCandidate, findFirstFlipkart cs = cs.findSome? flipkartAccept) ∧
    (∀ (cs : List FlipkartCandidate) (u : String), findFirstFlipkart cs = some u →
      ∃ c ∈ cs, flipkartSponsored c = false ∧ flipkartAccept c = some u) := by
  refine ⟨findFirstAmazon_eq_findSome, ?_, findFirstFlipkart_eq_findSome, ?_⟩
  · intro cs u h
    obtain ⟨c, hc, hacc⟩ := findFirstAmazon_mem h
    exact ⟨c, hc, (amazonAccept_eq_some hacc).1, hacc⟩
  · intro cs u h
    obtain ⟨c, hc, hacc⟩ := findFirstFlipkart_mem h
    exact ⟨c, hc, (flipkartAccept_eq_some hacc).1, hacc⟩

/-- Witness for C2: the filter agrees with the first-hit scan on the
two-candidate fixture, and the URL it returns there comes from the
signal-free candidate `c2CandB`. -/
theorem c2_witness :
    findFirstAmazon [c2CandA, c2CandB] = [c2CandA, c2CandB].findSome? amazonAccept ∧
    amazonSponsored c2CandB = false := by
  refine ⟨c2_amended.1 [c2CandA, c2CandB], ?_⟩
  obtain ⟨c, hc, hs, -⟩ :=
    c2_amended.2.1 [c2CandB] "https://www.amazon.in/dp/B01" (by decide)
  rw [List.mem_singleton] at hc
  rwa [hc] at hs

/-! ## Claim C3: at most three offers, no duplicates -/

/-- C3 counterexample fixture: a Myntra page with two offer elements
bearing identical titles. -/
def c3Page : MyntraPage :=
  { blankMyntraPage with
      offerTitleTexts := [some "Flat 10% off on first order",
                          some "Flat 10% off on first order"] }

/-- C3 is false as stated: the Myntra offer loop performs no
deduplication, so two offer elements with the same (already normalized)
title yield a duplicated extracted offers list. -/
theorem c3_counterexample :
    (extractMyntra c3Page).offers =
      ["Flat 10% off on first order", "Flat 10% off on first order"] ∧
    ¬ (extractMyntra c3Page).offers.Nodup := by
  refine ⟨?_, ?_⟩ <;> decide

/-- C3 (amended): on every platform the extracted offers list has length
at most 3; the Flipkart extractor additionally keeps it duplicate-free
(its entries are already whitespace-collapsed and trimmed when the
`includes` test deduplicates them), while the Myntra and Amazon extractors
do not deduplicate. -/
theorem c3_amended :
    (∀ p : FlipkartPage,
      (extractFlipkart p).offers.length ≤ 3 ∧ (extractFlipkart p).offers.Nodup) ∧
    (∀ p : AmazonPage, (extractAmazon p).offers.length ≤ 3) ∧
    (∀ p : MyntraPage, (extractMyntra p).offers.length ≤ 3) := by
  refine ⟨fun p => ⟨?_, flipkartOffers_nodup _⟩, fun p => ?_, fun p => ?_⟩
  · exact List.length_take_le _ _
  · exact List.length_take_le _ _
  · exact List.length_take_le _ _

/-! ## Claim C4: no organic result fails the call before any navigation -/

/-- C4 (confirmed): on the Flipkart and Amazon scrapers, once the search
phase has succeeded, an empty candidate list — or one in which every
candidate is sponsored — makes the scrape fail with the
`No non-sponsored products found` error, converts to the error envelope
with that exact message, and attempts no product-page navigation. -/
theorem c4_noOrganic :
    (∀ env : FlipkartEnv, env.launch = .ok () → env.gotoSearch = .ok () →
      env.waitResults = .ok () →
      (env.candidates = [] ∨ ∀ c ∈ env.candidates, flipkartSponsored c = true) →
      (scrapeFlipkart env).result = .error noOrganicMsg ∧
      (scrapeFlipkart env).productNavs = [] ∧
      flipkartProductScrapper env = .err noOrganicMsg) ∧
    (∀ env : AmazonEnv, env.launch = .ok () → env.gotoSearch = .ok () →
      env.waitResults = .ok () →
      (env.candidates = [] ∨ ∀ c ∈ env.candidates, amazonSponsored c = true) →
      (scrapeAmazon env).result = .error noOrganicMsg ∧
      (scrapeAmazon env).productNavs = [] ∧
      amazonProductScrapper env = .err noOrganicMsg) := by
  constructor
  · intro env h1 h2 h3 h4
    have hf : findFirstFlipkart env.candidates = none := by
      rcases h4 with h4 | h4
      · rw [h4]; rfl
      · exact findFirstFlipkart_none _ h4
    have hres : (scrapeFlipkart env).result = .error noOrganicMsg := by
      simp [scrapeFlipkart, h1, h2, h3, hf]
    refine ⟨hres, ?_, ?_⟩
    · simp [scrapeFlipkart, h1, h2, h3, hf]
    · simp [flipkartProductScrapper, hres]
  · intro env h1 h2 h3 h4
    have hf : findFirstAmazon env.candidates = none := by
      rcases h4 with h4 | h4
      · rw [h4]; rfl
      · exact findFirstAmazon_none _ h4
    have hres : (scrapeAmazon env).result = .error noOrganicMsg := by
      simp [scrapeAmazon, h1, h2, h3, hf]
    refine ⟨hres, ?_, ?_⟩
    · simp [scrapeAmazon, h1, h2, h3, hf]
    · simp [amazonProductScrapper, hres]

/-- C4 witness fixture: a Flipkart search whose single result is
sponsored. -/
def c4Env : FlipkartEnv :=
  { launch := .ok (), gotoSearch := .ok (), waitResults := .ok (),
    candidates := [{ hasSponsoredBadge := true, parentSponsored := false,
                     linkHref := some "/p/x" }],
    gotoProduct := .ok (), waitTitle := .ok (), page := blankFlipkartPage }

/-- Witness for C4: on the all-sponsored fixture the call errors with the
exact message and navigates nowhere. -/
theorem c4_witness :
    (scrapeFlipkart c4Env).result = .error noOrganicMsg ∧
    (scrapeFlipkart c4Env).productNavs = [] ∧
    flipkartProductScrapper c4Env = .err noOrganicMsg :=
  c4_noOrganic.1 c4Env rfl rfl rfl (Or.inr (by decide))

/-! ## Claim C5: a missing optional field degrades to null, not failure -/

/-- C5 (confirmed): on a Flipkart scrape in which every page-level step
succeeds and a product URL is found, a rating element absent at all of its
selectors (and likewise a missing delivery element) leaves that field
`null` in the envelope's data while the call still returns a success
envelope — no field-extraction failure aborts the scrape. -/
theorem c5_missing_field :
    ∀ (env : FlipkartEnv) (url : String),
      env.launch = .ok () → env.gotoSearch = .ok () → env.waitResults = .ok () →
      findFirstFlipkart env.candidates = some url →
      env.gotoProduct = .ok () → env.waitTitle = .ok () →
      env.page.ratingText = none → env.page.deliveryText = none →
      envIsOk (flipkartProductScrapper env) = true ∧
      envRatingStars (flipkartProductScrapper env) = none ∧
      envDelivery (flipkartProductScrapper env) = none := by
  intro env url h1 h2 h3 h4 h5 h6 hr hd
  have hrun : (scrapeFlipkart env).result =
      .ok { extractFlipkart env.page with productLink := some url } := by
    simp [scrapeFlipkart, h1, h2, h3, h4, h5, h6]
  refine ⟨?_, ?_, ?_⟩
  · simp [flipkartProductScrapper, hrun, envIsOk]
  · simp [flipkartProductScrapper, hrun, envRatingStars, extractFlipkart, hr]
  · simp [flipkartProductScrapper, hrun, envDelivery, extractFlipkart, hd]

/-- C5 witness fixture: a successful scrape of a page with no rating and
no delivery markup. -/
def c5Env : FlipkartEnv :=
  { launch := .ok (), gotoSearch := .ok (), waitResults := .ok (),
    candidates := [organicFlipkartCand],
    gotoProduct := .ok (), waitTitle := .ok (), page := blankFlipkartPage }

/-- Witness for C5: the fixture yields a success envelope with null
rating stars and null delivery. -/
theorem c5_witness :
    envIsOk (flipkartProductScrapper c5Env) = true ∧
    envRatingStars (flipkartProductScrapper c5Env) = none ∧
    envDelivery (flipkartProductScrapper c5Env) = none :=
  c5_missing_field c5Env "https://www.flipkart.com/p/shoe"
    rfl rfl rfl (by decide) rfl rfl rfl rfl

/-! ## Claim C6: the normalizer's envelope mapping -/

/-- C6 fixture: a product page whose price equals its MRP, so the computed
raw discount is `0`. -/
def c6Page : FlipkartPage :=
  { blankFlipkartPage with priceText := some "‚Çπ100", mrpText := some "‚Çπ100" }

/-- C6 counterexample environment. -/
def c6Env : FlipkartEnv :=
  { launch := .ok (), gotoSearch := .ok (), waitResults := .ok (),
    candidates := [organicFlipkartCand],
    gotoProduct := .ok (), waitTitle := .ok (), page := c6Page }

/-- C6 is false as stated: the claim says the envelope's discount is a
percent string exactly when the raw discount is non-null, but the
normalizer tests JS truthiness — with price = MRP = 100 the raw discount
is `some 0` (non-null) while the envelope's discount is `null`. -/
theorem c6_counterexample :
    runResultDiscount (scrapeFlipkart c6Env) = some (some 0) ∧
    envIsOk (flipkartProductScrapper c6Env) = true ∧
    envDiscountStr (flipkartProductScrapper c6Env) = none := by
  refine ⟨?_, ?_, ?_⟩ <;> decide

/-- The §4.6 envelope mapping for Flipkart, written field by field from
the amended specification: formatted exactly when the raw value is truthy
(non-null and non-zero, or non-empty for strings), the stated sentinel
otherwise. -/
def normalizeFlipkartSpec (r : FlipkartDetails) : FlipkartData :=
  { title := r.title
    price := match r.price with
      | some p => if p = 0 then "Not available" else "‚Çπ" ++ formatINR p
      | none => "Not available"
    mrp := match r.mrp with
      | some m => if m = 0 then none else some ("‚Çπ" ++ formatINR m)
      | none => none
    discount := match r.discount with
      | some k => if k = 0 then none else some (toString k ++ "%")
      | none => none
    rating := ⟨r.rating, r.totalRatings, r.totalReviews⟩
    topOffers := if r.offers = [] then ["No offers available"] else r.offers
    seller := match r.seller with
      | some s => if s = "" then "Not specified" else s
      | none => "Not specified"
    availability := r.availability
    delivery := r.delivery
    productLink := r.productLink }

/-- The §4.6 envelope mapping for Amazon, written from the amended
specification. -/
def normalizeAmazonSpec (r : AmazonDetails) : AmazonData :=
  { title := r.title
    price := match r.price with
      | some p => if p = 0 then "Not available" else "₹" ++ formatINR p
      | none => "Not available"
    mrp := match r.mrp with
      | some m => if m = 0 then none else some ("₹" ++ formatINR m)
      | none => none
    discount := match r.discount with
      | some k => if k = 0 then none else some (toString k ++ "%")
      | none => none
    rating := ⟨r.rating, r.totalRatings⟩
    topOffers := if r.offers = [] then ["No offers available"] else r.offers
    seller := match r.seller with
      | some s => if s = "" then "Not specified" else s
      | none => "Not specified"
    availability := r.availability
    productLink := r.productLink }

/-- C6 (amended): for every successful Flipkart or Amazon scrape the
controller returns the success envelope of the truthiness-based
normalization — price formatted exactly when the raw price is truthy
(non-null *and* non-zero) and `Not available` otherwise; mrp and discount
formatted-or-null by the same truthiness test (so a raw 0 becomes null,
not a string); topOffers the offers list when non-empty, else
`['No offers available']`; seller the raw seller when non-null and
non-empty, else `Not specified`. -/
theorem c6_amended :
    (∀ (env : FlipkartEnv) (r : FlipkartDetails),
      (scrapeFlipkart env).result = .ok r →
      flipkartProductScrapper env = .ok (normalizeFlipkartSpec r)) ∧
    (∀ (env : AmazonEnv) (r : AmazonDetails),
      (scrapeAmazon env).result = .ok r →
      amazonProductScrapper env = .ok (normalizeAmazonSpec r)) := by
  constructor
  · intro env r h
    simp [flipkartProductScrapper, h, normalizeFlipkartSpec, formatPriceField_eq,
      formatMrpField_eq, formatDiscountField_eq, jsStrOr_eq, topOffersField_eq]
  · intro env r h
    simp [amazonProductScrapper, h, normalizeAmazonSpec, formatPriceField_eq,
      formatMrpField_eq, formatDiscountField_eq, jsStrOr_eq, topOffersField_eq]

/-- C6 witness fixture: a successful scrape with price 2,999 and MRP
4,999. -/
def c6WPage : FlipkartPage :=
  { blankFlipkartPage with priceText := some "‚Çπ2,999", mrpText := some "‚Çπ4,999" }

/-- C6 witness environment. -/
def c6WEnv : FlipkartEnv :=
  { launch := .ok (), gotoSearch := .ok (), waitResults := .ok (),
    candidates := [organicFlipkartCand],
    gotoProduct := .ok (), waitTitle := .ok (), page := c6WPage }

/-- Witness for C6: the fixture's envelope is the normalization of its raw
record. -/
theorem c6_witness :
    flipkartProductScrapper c6WEnv = .ok (normalizeFlipkartSpec
      { extractFlipkart c6WPage with
          productLink := some "https://www.flipkart.com/p/shoe" }) :=
  c6_amended.1 c6WEnv _ rfl

/-! ## Claim C7: href validation and URL normalization -/

/-- C7 fixture: an organic Myntra candidate whose href carries no
product-path marker at all. -/
def c7Cand : MyntraCandidate := { indicatorTexts := [], linkHref := some "foo" }

/-- C7 is false as stated: the Myntra locator validates no
platform-specific product-path marker — a candidate whose href is the
plain `foo` is accepted and origin-prefixed instead of being skipped. -/
theorem c7_counterexample :
    myntraSponsored c7Cand = false ∧
    findFirstMyntra [c7Cand] = some "https://www.myntra.com/foo" := by
  refine ⟨rfl, ?_⟩
  decide

/-- C7 (amended): every accepted Flipkart href contains `/p/` and every
accepted Amazon href contains `/dp/`, and on those two platforms an
organic candidate whose href lacks the marker is skipped in favour of the
remaining candidates; the Myntra locator, however, accepts any non-empty
href with no marker validation. On all three platforms a relative href is
absolutized by prefixing the platform origin (with a trailing slash on
Myntra) and an href starting with `http` is returned unchanged. -/
theorem c7_amended :
    (∀ (cs : List FlipkartCandidate) (u : String), findFirstFlipkart cs = some u →
      ∃ c ∈ cs, ∃ href, c.linkHref = some href ∧ href ≠ "" ∧
        containsSub href "/p/" = true ∧
        u = if jsStartsWith href "http" then href
            else "https://www.flipkart.com" ++ href) ∧
    (∀ (cs : List AmazonCandidate) (u : String), findFirstAmazon cs = some u →
      ∃ c ∈ cs, ∃ href, c.linkHref = some href ∧ href ≠ "" ∧
        containsSub href "/dp/" = true ∧
        u = if jsStartsWith href "http" then href
            else "https://www.amazon.in" ++ href) ∧
    (∀ (cs : List MyntraCandidate) (u : String), findFirstMyntra cs = some u →
      ∃ c ∈ cs, ∃ href, c.linkHref = some href ∧ href ≠ "" ∧
        u = if jsStartsWith href "http" then href
            else "https://www.myntra.com/" ++ href) ∧
    (∀ (c : FlipkartCandidate) (cs : List FlipkartCandidate) (href : String),
      flipkartSponsored c = false → c.linkHref = some href →
      containsSub href "/p/" = false →
      findFirstFlipkart (c :: cs) = findFirstFlipkart cs) ∧
    (∀ (c : AmazonCandidate) (cs : List AmazonCandidate) (href : String),
      amazonSponsored c = false → c.linkHref = some href →
      containsSub href "/dp/" = false →
      findFirstAmazon (c :: cs) = findFirstAmazon cs) := by
  refine ⟨?_, ?_, ?_, ?_, ?_⟩
  · intro cs u h
    obtain ⟨c, hc, hacc⟩ := findFirstFlipkart_mem h
    obtain ⟨-, href, hl, hne, hmk, hu⟩ := flipkartAccept_eq_some hacc
    exact ⟨c, hc, href, hl, hne, hmk, hu⟩
  · intro cs u h
    obtain ⟨c, hc, hacc⟩ := findFirstAmazon_mem h
    obtain ⟨-, href, hl, hne, hmk, hu⟩ := amazonAccept_eq_some hacc
    exact ⟨c, hc, href, hl, hne, hmk, hu⟩
  · intro cs u h
    obtain ⟨c, hc, hacc⟩ := findFirstMyntra_mem h
    obtain ⟨-, href, hl, hne, hu⟩ := myntraAccept_eq_some hacc
    exact ⟨c, hc, href, hl, hne, hu⟩
  · intro c cs href hs hl hmk
    simp [findFirstFlipkart, hs, hl, hmk]
  · intro c cs href hs hl hmk
    simp [findFirstAmazon, hs, hl, hmk]

/-- C7 witness fixture: an organic Flipkart candidate with a marker-free
href. -/
def c7SkipCand : FlipkartCandidate :=
  { hasSponsoredBadge := false, parentSponsored := false,
    linkHref := some "/q/no-marker" }

/-- Witness for C7: the marker-free candidate is skipped, and the next
candidate's relative `/p/` href is origin-prefixed. -/
theorem c7_witness :
    findFirstFlipkart [c7SkipCand, organicFlipkartCand] =
      findFirstFlipkart [organicFlipkartCand] ∧
    findFirstFlipkart [organicFlipkartCand] =
      some "https://www.flipkart.com/p/shoe" := by
  refine ⟨c7_amended.2.2.2.1 c7SkipCand [organicFlipkartCand] "/q/no-marker"
    rfl rfl (by decide), ?_⟩
  decide

/-! ## Claim C8: step failures short-circuit into the error envelope -/

/-- C8 (confirmed): on the Flipkart and Amazon scrapers the controller
returns the error envelope `{ success: false, error: e }` exactly when the
scrape failed with message `e` — there is no partial-success form — and a
failing launch, search navigation or results-selector wait short-circuits
everything downstream: the run carries that step's own message and no
product-page navigation happens (each step is evaluated once; no retry
exists in the model). -/
theorem c8_propagation :
    (∀ (env : FlipkartEnv) (e : String),
      flipkartProductScrapper env = .err e ↔ (scrapeFlipkart env).result = .error e) ∧
    (∀ (env : FlipkartEnv) (e : String), env.launch = .error e →
      (scrapeFlipkart env).result = .error e ∧ (scrapeFlipkart env).productNavs = []) ∧
    (∀ (env : FlipkartEnv) (e : String), env.launch = .ok () → env.gotoSearch = .error e →
      (scrapeFlipkart env).result = .error e ∧ (scrapeFlipkart env).productNavs = []) ∧
    (∀ (env : FlipkartEnv) (e : String), env.launch = .ok () → env.gotoSearch = .ok () →
      env.waitResults = .error e →
      (scrapeFlipkart env).result = .error e ∧ (scrapeFlipkart env).productNavs = []) ∧
    (∀ (env : AmazonEnv) (e : String),
      amazonProductScrapper env = .err e ↔ (scrapeAmazon env).result = .error e) ∧
    (∀ (env : AmazonEnv) (e : String), env.launch = .ok () → env.gotoSearch = .error e →
      (scrapeAmazon env).result = .error e ∧ (scrapeAmazon env).productNavs = []) := by
  refine ⟨?_, ?_, ?_, ?_, ?_, ?_⟩
  · intro env e
    cases hres : (scrapeFlipkart env).result with
    | error e' => simp [flipkartProductScrapper, hres]
    | ok d => simp [flipkartProductScrapper, hres]
  · intro env e h1
    constructor <;> simp [scrapeFlipkart, h1]
  · intro env e h1 h2
    constructor <;> simp [scrapeFlipkart, h1, h2]
  · intro env e h1 h2 h3
    constructor <;> simp [scrapeFlipkart, h1, h2, h3]
  · intro env e
    cases hres : (scrapeAmazon env).result with
    | error e' => simp [amazonProductScrapper, hres]
    | ok d => simp [amazonProductScrapper, hres]
  · intro env e h1 h2
    constructor <;> simp [scrapeAmazon, h1, h2]

/-- C8 witness fixture: a Flipkart scrape whose search navigation times
out. -/
def c8Env : FlipkartEnv :=
  { launch := .ok (),
    gotoSearch := .error "Navigation timeout of 60000 ms exceeded",
    waitResults := .ok (), candidates := [organicFlipkartCand],
    gotoProduct := .ok (), waitTitle := .ok (), page := blankFlipkartPage }

/-- Witness for C8: the navigation failure's own message reaches the error
envelope and no product page is visited. -/
theorem c8_witness :
    (scrapeFlipkart c8Env).result =
      .error "Navigation timeout of 60000 ms exceeded" ∧
    (scrapeFlipkart c8Env).productNavs = [] ∧
    flipkartProductScrapper c8Env =
      .err "Navigation timeout of 60000 ms exceeded" := by
  have h := c8_propagation.2.2.1 c8Env "Navigation timeout of 60000 ms exceeded" rfl rfl
  exact ⟨h.1, h.2,
    (c8_propagation.1 c8Env "Navigation timeout of 60000 ms exceeded").mpr h.1⟩

/-! ## Claim C9: the browser is closed on every exit path -/

/-- C9 (confirmed): on all three scrapers, whenever `puppeteer.launch`
succeeded, the `finally` block closes the browser on every exit path —
success, extraction-phase failure, navigation or selector timeout, and the
no-organic-result error alike. -/
theorem c9_release :
    (∀ env : FlipkartEnv, env.launch = .ok () → (scrapeFlipkart env).browserClosed = true) ∧
    (∀ env : MyntraEnv, env.launch = .ok () → (scrapeMyntra env).browserClosed = true) ∧
    (∀ env : AmazonEnv, env.launch = .ok () → (scrapeAmazon env).browserClosed = true) := by
  refine ⟨fun env h => ?_, fun env h => ?_, fun env h => ?_⟩
  · simp [scrapeFlipkart, h]
  · simp [scrapeMyntra, h]
  · simp [scrapeAmazon, h]

/-- C9 witness fixture: a Myntra scrape that fails late, at the
product-title wait. -/
def c9MEnv : MyntraEnv :=
  { launch := .ok (), gotoHome := .ok (), waitSearchBar := .ok (),
    searchInteract := .ok (), waitNavigation := .ok (), waitListing := .ok (),
    candidates := [{ indicatorTexts := [], linkHref := some "buy/123" }],
    gotoProduct := .ok (),
    waitTitle := .error "Waiting for selector .pdp-title failed",
    page := blankMyntraPage }

/-- Witness for C9: the browser is closed both on a failing Myntra run and
on the all-sponsored Flipkart run. -/
theorem c9_witness :
    (scrapeMyntra c9MEnv).browserClosed = true ∧
    (scrapeFlipkart c4Env).browserClosed = true :=
  ⟨c9_release.2.1 c9MEnv rfl, c9_release.1 c4Env rfl⟩

/-! ## Claim C10: the decimal point alone triggers the ×1000 -/

/-- C10 (confirmed): in the Myntra extractor, once the ratings-count text
has been stripped of commas, whitespace and `k`/`K`, the first `[\d.]+`
match is multiplied by 1000 exactly when it contains a decimal point —
whether or not a `k` suffix was ever present — and parsed as an integer
otherwise. -/
theorem c10_kSuffix :
    ∀ (p : MyntraPage) (t m : String), p.ratingsCountText = some t →
      firstRun digitDot (stripChars myntraCountClass t).data = some m →
      ((m.data.contains '.' = true →
        (extractMyntra p).totalRatings = (parseFloat? m).map (qmul · 1000)) ∧
       (m.data.contains '.' = false →
        (extractMyntra p).totalRatings = (parseInt? m).map fun z => (z : ℚ))) := by
  intro p t m ht hm
  constructor <;> intro hdot
  · have hmem : '.' ∈ m.data := by simpa using hdot
    simp [extractMyntra, myntraTotalRatings, ht, hm, hmem]
  · have hmem : '.' ∉ m.data := by simpa using hdot
    simp [extractMyntra, myntraTotalRatings, ht, hm, hmem]

/-- C10 witness fixture: a count displayed as `4.2` with no suffix. -/
def c10PageA : MyntraPage := { blankMyntraPage with ratingsCountText := some "4.2" }

/-- C10 witness fixture: a count displayed as `1500`. -/
def c10PageB : MyntraPage := { blankMyntraPage with ratingsCountText := some "1500" }

/-- Witness for C10: `4.2` (no `k` suffix) becomes 4200 total ratings,
while `1500` stays 1500. -/
theorem c10_witness :
    (extractMyntra c10PageA).totalRatings = some 4200 ∧
    (extractMyntra c10PageB).totalRatings = some 1500 := by
  constructor
  · have h := (c10_kSuffix c10PageA "4.2" "4.2" rfl (by decide)).1 (by decide)
    rw [h]
    decide
  · have h := (c10_kSuffix c10PageB "1500" "1500" rfl (by decide)).2 (by decide)
    rw [h]
    decide

end Scraper
